import Mathlib

/-
Verification of the multi-backend replication layer of `src/db.js`.

The connection pool of each backend is an external capability: each statement
the source issues against it either returns a result or throws. A `Backend`
records, per statement kind, that outcome; `Except String` stands for an async
computation that either fulfills or rejects, and `Settled` is the record
`Promise.allSettled` produces for one promise. The table semantics of the
insert statement (unique guid, conflict-noop) is modelled separately for the
claims about stored rows.
-/

namespace AutoReadDb

/-- A feed item as bound into the nine-column insert statement of `savePosts`. -/
structure Post where
  title : String
  creator : String
  description : String
  link : String
  pubDate : String
  guid : String
  guidIsPermaLink : String
  source : String
  sourceUrl : String
  deriving Repr, DecidableEq

/-- The settlement record `Promise.allSettled` produces for one promise:
either status fulfilled carrying a value, or status rejected carrying a
reason. -/
inductive Settled (α : Type) where
  | fulfilled : α → Settled α
  | rejected : String → Settled α
  deriving Repr, DecidableEq

/-- How `Promise.allSettled` settles one promise, with `Except` standing for a
promise that either fulfills with a value or rejects with a reason. -/
def settle {α : Type} : Except String α → Settled α
  | .ok v => .fulfilled v
  | .error e => .rejected e

/-- A try/catch wrapper around an async task body: a thrown error is caught
and mapped to an ordinary return value, so the wrapped task never rejects. -/
def catchAll {α : Type} (body : Except String α) (handler : String → α) :
    Except String α :=
  match body with
  | .ok v => .ok v
  | .error e => .ok (handler e)

/-- One entry of `allPools`: the backend name and its pool, the pool modelled
by the outcome (result or thrown error) of each statement the source issues
against it. -/
structure Backend where
  name : String
  /-- Outcome of `CREATE TABLE IF NOT EXISTS posts ...`. -/
  createTable : Except String Unit
  /-- Outcome of `INSERT INTO posts ... ON CONFLICT (guid) DO NOTHING` for one
  bound post row. -/
  insertPost : Post → Except String Unit
  /-- Outcome of `SELECT 1 FROM posts WHERE guid = $1 LIMIT 1`: the reported
  rowCount. -/
  selectGuid : String → Except String Nat
  /-- Outcome of the trivial probe query `SELECT 1`. -/
  selectOne : Except String Unit
  /-- Outcome of `SELECT COUNT(*) as count FROM posts`: the parsed count. -/
  countPosts : Except String Int
  /-- Outcome of `SELECT created_at FROM posts ORDER BY created_at DESC LIMIT 1`:
  the created_at of the first row, if any. -/
  latestCreatedAt : Except String (Option String)
  /-- Outcome of `pool.end()`. -/
  endPool : Except String Unit

/-- The dynamic argument `savePosts` receives: an array of posts, or any
non-array value such as null, undefined, a string, or a plain object. -/
inductive PostsArg where
  | arr : List Post → PostsArg
  | nullV : PostsArg
  | undefinedV : PostsArg
  | strV : String → PostsArg
  | objV : PostsArg
  deriving Repr, DecidableEq

/-- Per-backend outcome record a save task resolves to. -/
structure BatchOutcome where
  name : String
  success : Bool
  error : Option String
  deriving Repr, DecidableEq

/-- Per-backend record a connection-test task resolves to. -/
structure ConnTestResult where
  name : String
  connected : Bool
  error : Option String
  deriving Repr, DecidableEq

/-- Per-backend statistics snapshot of `getAllDatabaseStats`. -/
structure StatsSnapshot where
  name : String
  totalPosts : Int
  latestPost : Option String
  status : String
  error : Option String
  deriving Repr, DecidableEq

/-- The sequential insert loop of `savePosts` against one backend: await the
insert of each post in order, rethrowing the first error. -/
def insertAll (b : Backend) : List Post → Except String Unit
  | [] => Except.ok ()
  | p :: ps =>
    match b.insertPost p with
    | .ok _ => insertAll b ps
    | .error e => Except.error e

/-- The per-backend task `savePosts` launches: create the table, insert every
post in sequence, and catch any error into a failure outcome record. -/
def saveTask (b : Backend) (posts : List Post) : Except String BatchOutcome :=
  catchAll
    (match b.createTable with
     | .ok _ =>
       match insertAll b posts with
       | .ok _ => Except.ok { name := b.name, success := true, error := none }
       | .error e => Except.error e
     | .error e => Except.error e)
    (fun e => { name := b.name, success := false, error := some e })

/-- The value a save task resolves to, spelled out by case. -/
def saveOutcome (b : Backend) (posts : List Post) : BatchOutcome :=
  match b.createTable with
  | .ok _ =>
    match insertAll b posts with
    | .ok _ => { name := b.name, success := true, error := none }
    | .error e => { name := b.name, success := false, error := some e }
  | .error e => { name := b.name, success := false, error := some e }

/-- The success filter of `savePosts`: status fulfilled and value success. -/
def fulfilledSuccess : Settled BatchOutcome → Bool
  | .fulfilled v => v.success
  | .rejected _ => false

/-- The `savePosts` entry point: return at once on a non-array or empty
argument, otherwise fan the batch out to every backend, join on settlement,
and throw the aggregate error exactly when the success count is zero. The
settled per-backend outcome list, which the source logs, is exposed as the ok
value. -/
def savePosts (allPools : List Backend) (arg : PostsArg) :
    Except String (List (Settled BatchOutcome)) :=
  match arg with
  | .arr posts =>
    if posts.length = 0 then Except.ok []
    else
      let results := allPools.map fun b => settle (saveTask b posts)
      let successCount := (results.filter fulfilledSuccess).length
      if successCount = 0 then Except.error "所有数据库保存都失败了"
      else Except.ok results
  | _ => Except.ok []

/-- The fallback loop of `isGuidExists` over `allPools.slice(1)`: return true
on the first backend whose existence query reports a positive rowCount, skip a
backend whose query throws, and return false when the loop ends. -/
def existsInFallbacks : List Backend → String → Bool
  | [], _ => false
  | b :: bs, guid =>
    match b.selectGuid guid with
    | .ok n => if n > 0 then true else existsInFallbacks bs guid
    | .error _ => existsInFallbacks bs guid

/-- The `isGuidExists` entry point: query the primary pool first and return
true on a positive rowCount; on a primary miss or a caught primary error fall
through to the fallback loop; every query error is caught, so the function
only ever resolves to a boolean. -/
def isGuidExists (primary : Backend) (fallbacks : List Backend) (guid : String) :
    Except String Bool :=
  match primary.selectGuid guid with
  | .ok n =>
    if n > 0 then Except.ok true
    else Except.ok (existsInFallbacks fallbacks guid)
  | .error _ => Except.ok (existsInFallbacks fallbacks guid)

/-- The per-query test `isGuidExists` applies to one backend: the existence
query succeeded and reported a positive rowCount. -/
def queryFindsGuid (b : Backend) (guid : String) : Bool :=
  match b.selectGuid guid with
  | .ok n => decide (n > 0)
  | .error _ => false

/-- One per-backend connection-test task: await `SELECT 1` and resolve to
connected true, catching an error into connected false with its message. -/
def testTask (b : Backend) : Except String ConnTestResult :=
  catchAll
    (match b.selectOne with
     | .ok _ => Except.ok { name := b.name, connected := true, error := none }
     | .error e => Except.error e)
    (fun e => { name := b.name, connected := false, error := some e })

/-- The `testAllConnections` entry point: fan the probe out, join on
settlement, and return the settlement records themselves, not the unwrapped
per-backend values. -/
def testAllConnections (allPools : List Backend) :
    Except String (List (Settled ConnTestResult)) :=
  Except.ok (allPools.map fun b => settle (testTask b))

/-- The try-block of one stats task: the count query, then the latest-row
query, assembled into a healthy snapshot; either thrown error is rethrown to
the catch. -/
def statsQuery (b : Backend) : Except String StatsSnapshot :=
  match b.countPosts with
  | .ok count =>
    match b.latestCreatedAt with
    | .ok latest =>
      Except.ok { name := b.name, totalPosts := count, latestPost := latest,
                  status := "healthy", error := none }
    | .error e => Except.error e
  | .error e => Except.error e

/-- One per-backend stats task: the try-block with its catch, which turns any
error into the sentinel snapshot with totalPosts -1 and status error. -/
def statsTask (b : Backend) : Except String StatsSnapshot :=
  catchAll (statsQuery b)
    (fun e => { name := b.name, totalPosts := -1, latestPost := none,
                status := "error", error := some e })

/-- The snapshot one stats task resolves to: the healthy snapshot of the
try-block, or the sentinel built by the catch. -/
def statsValue (b : Backend) : StatsSnapshot :=
  match statsQuery b with
  | .ok s => s
  | .error e => { name := b.name, totalPosts := -1, latestPost := none,
                  status := "error", error := some e }

/-- One element of the list `getAllDatabaseStats` returns: the value of a
fulfilled settlement, or the reason of a rejected one. -/
inductive StatsEntry where
  | snapshot : StatsSnapshot → StatsEntry
  | reason : String → StatsEntry
  deriving Repr, DecidableEq

/-- The `getAllDatabaseStats` entry point: fan out, join on settlement, then
map each settlement to its value when fulfilled and to its reason otherwise. -/
def getAllDatabaseStats (allPools : List Backend) :
    Except String (List StatsEntry) :=
  Except.ok ((allPools.map fun b => settle (statsTask b)).map fun r =>
    match r with
    | .fulfilled v => StatsEntry.snapshot v
    | .rejected e => StatsEntry.reason e)

/-- One per-backend close task: await `pool.end()`, catching and merely
logging any error, so the task resolves either way. -/
def closeTask (b : Backend) : Except String Unit :=
  catchAll b.endPool (fun _ => ())

/-- The `closeAllConnections` entry point: fan out the close tasks, join on
settlement, return nothing and rethrow nothing. -/
def closeAllConnections (allPools : List Backend) : Except String Unit :=
  let _ := allPools.map fun b => settle (closeTask b)
  Except.ok ()

/-- Table effect of the insert statement the source issues: with
ON CONFLICT (guid) DO NOTHING, the row is appended only when no stored row
already carries the same guid. -/
def insertRow (table : List Post) (p : Post) : List Post :=
  if table.any fun q => q.guid == p.guid then table else table ++ [p]

/-- Stored table after one healthy backend executes the sequential insert
loop of `savePosts` over a batch, starting from the given table. -/
def runBatch (table : List Post) (posts : List Post) : List Post :=
  posts.foldl insertRow table

/-- A fragment of the JavaScript value universe, enough to compare the shape
of the objects `testAllConnections` returns with the shape the specification
claims for them. -/
inductive Js where
  | str : String → Js
  | jsBool : Bool → Js
  | undef : Js
  | obj : List (String × Js) → Js

/-- Field lookup in the association list of a JavaScript object. -/
def jsLookup : List (String × Js) → String → Js
  | [], _ => Js.undef
  | (k, v) :: rest, key => if k == key then v else jsLookup rest key

/-- Property access on a JavaScript value: undefined on a missing field and on
a non-object. -/
def Js.get : Js → String → Js
  | .obj fields, key => jsLookup fields key
  | _, _ => Js.undef

/-- The connection-test record as the JavaScript object the task builds. -/
def connTestResultToJs (r : ConnTestResult) : Js :=
  Js.obj ([("name", Js.str r.name), ("connected", Js.jsBool r.connected)] ++
    (match r.error with
     | some e => [("error", Js.str e)]
     | none => []))

/-- A settlement record as the JavaScript object Promise.allSettled builds. -/
def settledConnToJs : Settled ConnTestResult → Js
  | .fulfilled v =>
    Js.obj [("status", Js.str "fulfilled"), ("value", connTestResultToJs v)]
  | .rejected e =>
    Js.obj [("status", Js.str "rejected"), ("reason", Js.str e)]

/-- Modelled from the spec: `probeAll` is said to return a sequence of bare
per-backend records of shape name, connected, optional error. This is the
claimed return value, to be compared with what `testAllConnections` actually
returns. -/
def probeAllClaimed (allPools : List Backend) : List ConnTestResult :=
  allPools.map fun b =>
    match b.selectOne with
    | .ok _ => { name := b.name, connected := true, error := none }
    | .error e => { name := b.name, connected := false, error := some e }

/-- A demonstration backend on which every statement succeeds against an
empty posts table. -/
def demoHealthy : Backend :=
  { name := "Aiven PostgreSQL"
    createTable := Except.ok ()
    insertPost := fun _ => Except.ok ()
    selectGuid := fun _ => Except.ok 0
    selectOne := Except.ok ()
    countPosts := Except.ok 0
    latestCreatedAt := Except.ok none
    endPool := Except.ok () }

/-- A demonstration backend on which every statement throws. -/
def demoDown : Backend :=
  { name := "CockroachDB"
    createTable := Except.error "down"
    insertPost := fun _ => Except.error "down"
    selectGuid := fun _ => Except.error "down"
    selectOne := Except.error "down"
    countPosts := Except.error "down"
    latestCreatedAt := Except.error "down"
    endPool := Except.error "down" }

/-- A demonstration post. -/
def demoPost : Post :=
  { title := "A", creator := "c", description := "d", link := "l",
    pubDate := "p", guid := "g1", guidIsPermaLink := "false", source := "s",
    sourceUrl := "u" }

/-- A second demonstration post with a fresh guid. -/
def demoPost2 : Post :=
  { demoPost with guid := "g2", title := "B" }

/-- A demonstration post duplicating the guid of `demoPost` under another
title. -/
def demoPostDup : Post :=
  { demoPost with title := "C" }

/-- A save task resolves to its outcome value and never rejects. -/
theorem saveTask_eq (b : Backend) (posts : List Post) :
    saveTask b posts = Except.ok (saveOutcome b posts) := by
  unfold saveTask saveOutcome catchAll
  cases hc : b.createTable with
  | error e => rfl
  | ok u =>
    cases hi : insertAll b posts with
    | error e => rfl
    | ok u2 => rfl

/-- A stats task resolves to its snapshot value and never rejects. -/
theorem statsTask_eq (b : Backend) : statsTask b = Except.ok (statsValue b) := by
  unfold statsTask statsValue catchAll
  cases h : statsQuery b with
  | ok s => rfl
  | error e => rfl

/-- The fallback loop is the boolean any of the per-backend query test. -/
theorem existsInFallbacks_eq_any (fallbacks : List Backend) (guid : String) :
    existsInFallbacks fallbacks guid =
      fallbacks.any fun b => queryFindsGuid b guid := by
  induction fallbacks with
  | nil => rfl
  | cons b bs ih =>
    simp only [existsInFallbacks, List.any_cons]
    cases h : b.selectGuid guid with
    | ok n =>
      have hq : queryFindsGuid b guid = decide (n > 0) := by
        unfold queryFindsGuid
        rw [h]
      rw [hq]
      by_cases hn : n > 0
      · simp [hn]
      · simp [hn, ih]
    | error e =>
      have hq : queryFindsGuid b guid = false := by
        unfold queryFindsGuid
        rw [h]
      rw [hq, ih]
      simp

/-- The success count of `savePosts` is zero exactly when every backend task
resolved to a failure outcome. -/
theorem saveSuccessCount_zero_iff (allPools : List Backend) (posts : List Post) :
    (((allPools.map fun b => settle (saveTask b posts)).filter
        fulfilledSuccess).length = 0) ↔
      ∀ b ∈ allPools, (saveOutcome b posts).success = false := by
  induction allPools with
  | nil => simp
  | cons b bs ih =>
    simp only [saveTask_eq, settle] at ih
    simp only [List.map_cons, List.filter_cons, saveTask_eq, settle]
    cases hs : (saveOutcome b posts).success with
    | true =>
      simp only [fulfilledSuccess, hs]
      simp [hs]
    | false =>
      simp only [fulfilledSuccess, hs]
      simp only [if_neg Bool.false_ne_true]
      rw [ih]
      simp [hs]

/-- The list `getAllDatabaseStats` resolves to: one snapshot entry per
registered backend, in registry order. -/
theorem getAllDatabaseStats_eq (allPools : List Backend) :
    getAllDatabaseStats allPools =
      Except.ok (allPools.map fun b => StatsEntry.snapshot (statsValue b)) := by
  unfold getAllDatabaseStats
  simp only [statsTask_eq, settle, List.map_map]
  rfl

/-- Claim C1: on a non-empty batch, `savePosts` throws the aggregate error
exactly when every backend task resolved to a failure outcome, and as soon as
at least one backend succeeded it returns successfully, exposing the settled
per-backend outcome list in which the failed backends are still marked. -/
theorem savePosts_fails_iff_all_backends_fail
    (allPools : List Backend) (posts : List Post) (hne : posts ≠ []) :
    ((∀ b ∈ allPools, (saveOutcome b posts).success = false) →
      savePosts allPools (.arr posts) = Except.error "所有数据库保存都失败了") ∧
    ((∃ b ∈ allPools, (saveOutcome b posts).success = true) →
      savePosts allPools (.arr posts) =
        Except.ok (allPools.map fun b => settle (saveTask b posts))) := by
  have hlen : ¬ posts.length = 0 := by
    simpa [List.length_eq_zero] using hne
  have hred : savePosts allPools (.arr posts) =
      if posts.length = 0 then Except.ok []
      else
        if (((allPools.map fun b => settle (saveTask b posts)).filter
            fulfilledSuccess).length = 0)
        then Except.error "所有数据库保存都失败了"
        else Except.ok (allPools.map fun b => settle (saveTask b posts)) := rfl
  constructor
  · intro hall
    rw [hred, if_neg hlen,
      if_pos ((saveSuccessCount_zero_iff allPools posts).mpr hall)]
  · rintro ⟨b, hb, hs⟩
    rw [hred, if_neg hlen, if_neg]
    intro h0
    have := (saveSuccessCount_zero_iff allPools posts).mp h0 b hb
    rw [hs] at this
    exact Bool.noConfusion this

/-- Witness for C1 at concrete inputs: with the one registered backend down
the aggregate error is thrown, and the hypotheses of the claim theorem are
discharged at those inputs. -/
theorem savePosts_fails_iff_all_backends_fail_witness :
    savePosts [demoDown] (.arr [demoPost]) =
      Except.error "所有数据库保存都失败了" :=
  (savePosts_fails_iff_all_backends_fail [demoDown] [demoPost]
      (List.cons_ne_nil _ _)).1
    (by decide)

/-- Claim C2: `isGuidExists` resolves to ok of the best-effort OR of the
per-backend outcomes: true when the primary query reports a match, otherwise
true exactly when some fallback, visited in registration order with failing
queries skipped, reports one, and false when no backend does. -/
theorem isGuidExists_eq_or
    (primary : Backend) (fallbacks : List Backend) (guid : String) :
    isGuidExists primary fallbacks guid =
      Except.ok (queryFindsGuid primary guid ||
        fallbacks.any fun b => queryFindsGuid b guid) := by
  cases h : primary.selectGuid guid with
  | ok n =>
    have hq : queryFindsGuid primary guid = decide (n > 0) := by
      unfold queryFindsGuid
      rw [h]
    by_cases hn : n > 0
    · have hgo : isGuidExists primary fallbacks guid = Except.ok true := by
        unfold isGuidExists
        rw [h]
        show (if n > 0 then Except.ok true
          else Except.ok (existsInFallbacks fallbacks guid)) = Except.ok true
        rw [if_pos hn]
      rw [hgo, hq]
      simp [hn]
    · have hgo : isGuidExists primary fallbacks guid =
          Except.ok (existsInFallbacks fallbacks guid) := by
        unfold isGuidExists
        rw [h]
        show (if n > 0 then Except.ok true
            else Except.ok (existsInFallbacks fallbacks guid)) =
          Except.ok (existsInFallbacks fallbacks guid)
        rw [if_neg hn]
      rw [hgo, hq, existsInFallbacks_eq_any]
      simp [hn]
  | error e =>
    have hq : queryFindsGuid primary guid = false := by
      unfold queryFindsGuid
      rw [h]
    have hgo : isGuidExists primary fallbacks guid =
        Except.ok (existsInFallbacks fallbacks guid) := by
      unfold isGuidExists
      rw [h]
    rw [hgo, hq, existsInFallbacks_eq_any]
    simp

/-- Claim C4: a batch whose first and third posts share a guid under differing
titles, written to one healthy backend starting from an empty table, stores
exactly two rows, and the row stored for the duplicated guid is the first
occurrence in full. -/
theorem runBatch_first_duplicate_wins
    (p1 p2 p3 : Post) (hdup : p1.guid = p3.guid) (_htitle : p1.title ≠ p3.title)
    (hdistinct : p2.guid ≠ p1.guid) :
    runBatch [] [p1, p2, p3] = [p1, p2] ∧
    (runBatch [] [p1, p2, p3]).length = 2 ∧
    (runBatch [] [p1, p2, p3]).find? (fun q => q.guid == p1.guid) = some p1 := by
  have h12 : (p1.guid == p2.guid) = false := by
    simp only [beq_eq_false_iff_ne, ne_eq]
    exact fun h => hdistinct h.symm
  have h13 : (p1.guid == p3.guid) = true := by
    simp [hdup]
  have hmain : runBatch [] [p1, p2, p3] = [p1, p2] := by
    simp [runBatch, insertRow, h12, h13]
  refine ⟨hmain, ?_, ?_⟩
  · rw [hmain]
    rfl
  · rw [hmain]
    simp [List.find?]

/-- Witness for C4 at concrete posts: the duplicated guid keeps the first
occurrence and the table holds two rows. -/
theorem runBatch_first_duplicate_wins_witness :
    runBatch [] [demoPost, demoPost2, demoPostDup] = [demoPost, demoPost2] ∧
    (runBatch [] [demoPost, demoPost2, demoPostDup]).length = 2 ∧
    (runBatch [] [demoPost, demoPost2, demoPostDup]).find?
      (fun q => q.guid == demoPost.guid) = some demoPost :=
  runBatch_first_duplicate_wins demoPost demoPost2 demoPostDup rfl
    (by decide) (by decide)

/-- Any row whose guid is already present in the table stays present after a
further conflict-noop insert. -/
theorem any_insertRow_mono (t : List Post) (p : Post) (g : String)
    (h : t.any (fun q => q.guid == g) = true) :
    (insertRow t p).any (fun q => q.guid == g) = true := by
  unfold insertRow
  cases hc : t.any fun q => q.guid == p.guid with
  | true => simpa [hc] using h
  | false => simp [hc, List.any_append, h]

/-- After a conflict-noop insert of a row, its guid is present. -/
theorem any_insertRow_self (t : List Post) (p : Post) :
    (insertRow t p).any (fun q => q.guid == p.guid) = true := by
  unfold insertRow
  cases hc : t.any fun q => q.guid == p.guid with
  | true => simp [hc]
  | false => simp [hc, List.any_append]

/-- A guid present in the table is still present after running a batch. -/
theorem any_runBatch_mono (ps : List Post) :
    ∀ (t : List Post) (g : String), t.any (fun q => q.guid == g) = true →
      (runBatch t ps).any (fun q => q.guid == g) = true := by
  induction ps with
  | nil =>
    intro t g h
    exact h
  | cons a as ih =>
    intro t g h
    exact ih (insertRow t a) g (any_insertRow_mono t a g h)

/-- Every guid of the batch is present in the table after running it. -/
theorem any_runBatch_mem (ps : List Post) :
    ∀ (t : List Post) (p : Post), p ∈ ps →
      (runBatch t ps).any (fun q => q.guid == p.guid) = true := by
  induction ps with
  | nil =>
    intro t p hp
    cases hp
  | cons a as ih =>
    intro t p hp
    rcases List.mem_cons.mp hp with h | h
    · subst h
      exact any_runBatch_mono as (insertRow t p) p.guid (any_insertRow_self t p)
    · exact ih (insertRow t a) p h

/-- Running a batch whose every guid is already stored leaves the table
unchanged. -/
theorem runBatch_noop (ps : List Post) :
    ∀ t : List Post, (∀ p ∈ ps, t.any (fun q => q.guid == p.guid) = true) →
      runBatch t ps = t := by
  induction ps with
  | nil =>
    intro t _
    rfl
  | cons a as ih =>
    intro t h
    have ha : insertRow t a = t := by
      unfold insertRow
      rw [if_pos (h a (List.mem_cons_self a as))]
    show List.foldl insertRow (insertRow t a) as = t
    rw [ha]
    exact ih t fun p hp => h p (List.mem_cons_of_mem a hp)

/-- Claim C6: writing the same batch twice to one backend leaves exactly the
table of the single write: every duplicate insert is a silent no-op, so in
particular the stored row count is unchanged. -/
theorem runBatch_idempotent (table posts : List Post) :
    runBatch (runBatch table posts) posts = runBatch table posts ∧
    (runBatch (runBatch table posts) posts).length =
      (runBatch table posts).length := by
  have h := runBatch_noop posts (runBatch table posts)
    (fun p hp => any_runBatch_mem posts table p hp)
  exact ⟨h, by rw [h]⟩

/-- Claim C3, counterexample: at a concrete one-backend registry the entry
`testAllConnections` returns is the Promise.allSettled wrapper; read as a
JavaScript object its connected field is undefined and its status field is
the string fulfilled, whereas the bare record the claim describes, built by
`probeAllClaimed`, has connected true. -/
theorem testAllConnections_shape_counterexample :
    testAllConnections [demoHealthy] =
      Except.ok [Settled.fulfilled
        { name := "Aiven PostgreSQL", connected := true, error := none }] ∧
    (settledConnToJs (Settled.fulfilled
        { name := "Aiven PostgreSQL", connected := true, error := none })).get
      "connected" = Js.undef ∧
    (settledConnToJs (Settled.fulfilled
        { name := "Aiven PostgreSQL", connected := true, error := none })).get
      "status" = Js.str "fulfilled" ∧
    probeAllClaimed [demoHealthy] =
      [{ name := "Aiven PostgreSQL", connected := true, error := none }] ∧
    (connTestResultToJs
        { name := "Aiven PostgreSQL", connected := true, error := none }).get
      "connected" = Js.jsBool true :=
  ⟨rfl, rfl, rfl, rfl, rfl⟩

/-- Claim C3 amended: `testAllConnections` never throws and returns one
Promise.allSettled settlement record per registered backend in order, each
fulfilled with the per-backend value; a backend whose probe query throws
contributes a fulfilled value with connected false carrying the error, and a
reachable backend a fulfilled value with connected true. -/
theorem testAllConnections_settled_records (allPools : List Backend) :
    testAllConnections allPools =
      Except.ok (allPools.map fun b => settle (testTask b)) ∧
    (allPools.map fun b => settle (testTask b)).length = allPools.length ∧
    (∀ b e, b.selectOne = Except.error e →
      settle (testTask b) = Settled.fulfilled
        { name := b.name, connected := false, error := some e }) ∧
    (∀ b, b.selectOne = Except.ok () →
      settle (testTask b) = Settled.fulfilled
        { name := b.name, connected := true, error := none }) := by
  refine ⟨rfl, List.length_map _ _, ?_, ?_⟩
  · intro b e he
    unfold testTask catchAll
    rw [he]
    rfl
  · intro b hb
    unfold testTask catchAll
    rw [hb]
    rfl

/-- Witness for the amended C3 at a concrete backend whose probe throws. -/
theorem testAllConnections_settled_records_witness :
    settle (testTask demoDown) = Settled.fulfilled
      { name := "CockroachDB", connected := false, error := some "down" } :=
  (testAllConnections_settled_records [demoDown]).2.2.1 demoDown "down" rfl

/-- Claim C5: for every registry and every backend behavior, `isGuidExists`,
`testAllConnections`, `getAllDatabaseStats` and `closeAllConnections` resolve
with ok and never reject; a backend whose query throws degrades to false in
the existence loop, to connected false in the probe, to the totalPosts -1
sentinel in the stats, and to a swallowed unit in the close. -/
theorem readers_never_throw
    (primary : Backend) (allPools : List Backend) (guid : String) :
    (∃ v, isGuidExists primary allPools guid = Except.ok v) ∧
    (∃ v, testAllConnections allPools = Except.ok v) ∧
    (∃ v, getAllDatabaseStats allPools = Except.ok v) ∧
    closeAllConnections allPools = Except.ok () ∧
    (∀ b e, b.selectGuid guid = Except.error e →
      existsInFallbacks [b] guid = false) ∧
    (∀ b e, b.selectOne = Except.error e →
      testTask b = Except.ok
        { name := b.name, connected := false, error := some e }) ∧
    (∀ b e, statsQuery b = Except.error e →
      statsTask b = Except.ok
        { name := b.name, totalPosts := -1, latestPost := none,
          status := "error", error := some e }) ∧
    (∀ b e, b.endPool = Except.error e → closeTask b = Except.ok ()) := by
  refine ⟨?_, ⟨_, rfl⟩, ⟨_, rfl⟩, rfl, ?_, ?_, ?_, ?_⟩
  · cases h : primary.selectGuid guid with
    | ok n =>
      by_cases hn : n > 0
      · refine ⟨true, ?_⟩
        unfold isGuidExists
        rw [h]
        show (if n > 0 then Except.ok true
          else Except.ok (existsInFallbacks allPools guid)) = Except.ok true
        rw [if_pos hn]
      · refine ⟨existsInFallbacks allPools guid, ?_⟩
        unfold isGuidExists
        rw [h]
        show (if n > 0 then Except.ok true
            else Except.ok (existsInFallbacks allPools guid)) =
          Except.ok (existsInFallbacks allPools guid)
        rw [if_neg hn]
    | error e =>
      refine ⟨existsInFallbacks allPools guid, ?_⟩
      unfold isGuidExists
      rw [h]
  · intro b e he
    unfold existsInFallbacks
    rw [he]
    rfl
  · intro b e he
    unfold testTask catchAll
    rw [he]
  · intro b e he
    unfold statsTask catchAll
    rw [he]
  · intro b e he
    unfold closeTask catchAll
    rw [he]

/-- Witness for C5 at a concrete backend whose existence query throws: the
fallback loop degrades it to false. -/
theorem readers_never_throw_witness :
    existsInFallbacks [demoDown] "g1" = false :=
  (readers_never_throw demoHealthy [demoDown] "g1").2.2.2.2.1 demoDown "down" rfl

/-- Claim C7: `getAllDatabaseStats` resolves to exactly one snapshot entry
per registered backend in registry order; a backend whose count or latest
query throws yields the sentinel snapshot with totalPosts -1 and status
error, while a backend whose queries succeed yields its healthy snapshot. -/
theorem getAllDatabaseStats_snapshots (allPools : List Backend) :
    getAllDatabaseStats allPools =
      Except.ok (allPools.map fun b => StatsEntry.snapshot (statsValue b)) ∧
    (∀ es, getAllDatabaseStats allPools = Except.ok es →
      es.length = allPools.length) ∧
    (∀ b e, statsQuery b = Except.error e →
      statsValue b = { name := b.name, totalPosts := -1, latestPost := none,
                       status := "error", error := some e }) ∧
    (∀ b s, statsQuery b = Except.ok s → statsValue b = s) := by
  refine ⟨getAllDatabaseStats_eq allPools, ?_, ?_, ?_⟩
  · intro es hes
    rw [getAllDatabaseStats_eq allPools] at hes
    cases hes
    simp
  · intro b e he
    unfold statsValue
    rw [he]
  · intro b s hs
    unfold statsValue
    rw [hs]

/-- Witness for C7 at a concrete backend whose stats queries throw: its
snapshot is the sentinel. -/
theorem getAllDatabaseStats_snapshots_witness :
    statsValue demoDown =
      { name := "CockroachDB", totalPosts := -1, latestPost := none,
        status := "error", error := some "down" } :=
  (getAllDatabaseStats_snapshots [demoDown]).2.2.1 demoDown "down" rfl

/-- Claim C8: an empty batch short-circuits `savePosts` before the fan-out:
the call resolves to ok with no per-backend outcome, identically for every
registry, so no backend is consulted and no statement is issued. -/
theorem savePosts_empty_noop (allPools otherPools : List Backend) :
    savePosts allPools (.arr []) = Except.ok [] ∧
    savePosts allPools (.arr []) = savePosts otherPools (.arr []) :=
  ⟨rfl, rfl⟩

/-- Claim C9: a non-array argument takes the same early-return path as an
empty batch: ok with no outcome, identically for every registry, so no
backend is consulted. -/
theorem savePosts_nonarray_noop (allPools : List Backend) (arg : PostsArg)
    (h : ∀ posts, arg ≠ PostsArg.arr posts) :
    savePosts allPools arg = Except.ok [] ∧
    savePosts allPools arg = savePosts [] arg := by
  cases arg with
  | arr posts => exact absurd rfl (h posts)
  | nullV => exact ⟨rfl, rfl⟩
  | undefinedV => exact ⟨rfl, rfl⟩
  | strV s => exact ⟨rfl, rfl⟩
  | objV => exact ⟨rfl, rfl⟩

/-- Witness for C9 at a concrete null argument and a two-backend registry. -/
theorem savePosts_nonarray_noop_witness :
    savePosts [demoHealthy, demoDown] PostsArg.nullV = Except.ok [] :=
  (savePosts_nonarray_noop [demoHealthy, demoDown] PostsArg.nullV
    (fun _ h => PostsArg.noConfusion h)).1

/-- Claim C10: every per-backend task catches its own errors and resolves, so
every joined settlement is fulfilled; in particular the fulfilled-status
filters can never drop an entry, and the reason fallback of
`getAllDatabaseStats` is dead: every returned entry is a snapshot. -/
theorem fanout_tasks_always_fulfilled
    (b : Backend) (posts : List Post) (allPools : List Backend) :
    (∃ v, settle (saveTask b posts) = Settled.fulfilled v) ∧
    (∃ v, settle (testTask b) = Settled.fulfilled v) ∧
    (∃ v, settle (statsTask b) = Settled.fulfilled v) ∧
    settle (closeTask b) = Settled.fulfilled () ∧
    (∀ es, getAllDatabaseStats allPools = Except.ok es →
      ∀ x ∈ es, ∃ s, x = StatsEntry.snapshot s) := by
  refine ⟨⟨saveOutcome b posts, by rw [saveTask_eq]; rfl⟩, ?_,
    ⟨statsValue b, by rw [statsTask_eq]; rfl⟩, ?_, ?_⟩
  · cases hse : b.selectOne with
    | ok u =>
      refine ⟨{ name := b.name, connected := true, error := none }, ?_⟩
      unfold testTask catchAll
      rw [hse]
      rfl
    | error e =>
      refine ⟨{ name := b.name, connected := false, error := some e }, ?_⟩
      unfold testTask catchAll
      rw [hse]
      rfl
  · unfold closeTask catchAll
    cases b.endPool with
    | ok u =>
      cases u
      rfl
    | error e => rfl
  · intro es hes x hx
    rw [getAllDatabaseStats_eq allPools] at hes
    cases hes
    rcases List.mem_map.mp hx with ⟨b2, hb2, rfl⟩
    exact ⟨statsValue b2, rfl⟩

/-- Witness for C10 at a concrete registry: the one entry of the stats list
is a snapshot. -/
theorem fanout_tasks_always_fulfilled_witness :
    ∃ s, StatsEntry.snapshot (statsValue demoDown) = StatsEntry.snapshot s :=
  (fanout_tasks_always_fulfilled demoDown [] [demoDown]).2.2.2.2
    [StatsEntry.snapshot (statsValue demoDown)] rfl
    (StatsEntry.snapshot (statsValue demoDown)) (List.mem_singleton.mpr rfl)

end AutoReadDb
